import Mathlib

/-! Lead compensator and damped-mass plant (`Lead_compensator.c`)

A shallow embedding of the three functions of `Lead_compensator.c`:
`Lead_Compensator_Step`, `Object_Step` and the simulation loop of `main`.

The C program computes in `float`.  The embedding computes in exact
arithmetic over `ℚ`: every C `float` variable and struct field is a rational
number, `+ - * /` are the field operations of `ℚ` and the comparisons `>`
and `<` are the order of `ℚ`.  Rounding, infinities and NaN are therefore
outside the embedding.  The division of `ℚ` is total (`x / 0 = 0`); the two
divisors of the program are `T + tau_p` and `m`, and a statement whose truth
depends on the value of a quotient carries the hypothesis that its divisor
is not zero.

A C function that mutates a struct through a pointer and returns a value
becomes a function from the old struct (and the arguments) to the pair of the
new struct and the returned value.
-/

namespace LeadCompensatorC

/-! ## Data model -/

/-- The C `struct Lead_Compensator`: seven constant parameters followed by
the three state fields. -/
structure Lead_Compensator where
  /-- Lead compensator gain -/
  kl : ℚ
  /-- Pole time constant -/
  tau_p : ℚ
  /-- Zero time constant -/
  tau_z : ℚ
  /-- Time step -/
  T : ℚ
  /-- Max command -/
  max : ℚ
  /-- Min command -/
  min : ℚ
  /-- Max rate of change of the command -/
  max_rate : ℚ
  /-- Previous error -/
  error_prev : ℚ
  /-- Previous command -/
  command_prev : ℚ
  /-- Previous saturated command -/
  command_sat_prev : ℚ
  deriving DecidableEq, Repr

/-- The C `struct Object`: five constant parameters followed by the two
state fields. -/
structure Object where
  /-- Mass of the object -/
  m : ℚ
  /-- Damping constant -/
  k : ℚ
  /-- Max force applied to the object -/
  F_max : ℚ
  /-- Min force applied to the object -/
  F_min : ℚ
  /-- Time step -/
  T : ℚ
  /-- Velocity of the object -/
  v : ℚ
  /-- Position of the object -/
  z : ℚ
  deriving DecidableEq, Repr

/-! ## `Lead_Compensator_Step` -/

/-- The C function `Lead_Compensator_Step`, statement by statement.  The
result is the struct as the call leaves it, paired with the returned
`command_sat`. -/
def Lead_Compensator_Step (lead_compensator : Lead_Compensator) (measurement setpoint : ℚ) :
    Lead_Compensator × ℚ :=
  -- Error calculation
  let err : ℚ := setpoint - measurement
  -- Calculate command using lead compensator equation
  let command : ℚ :=
    (lead_compensator.kl * (lead_compensator.T * err
        + lead_compensator.tau_z * (err - lead_compensator.error_prev))
      + lead_compensator.tau_p * lead_compensator.command_prev)
      / (lead_compensator.T + lead_compensator.tau_p)
  -- Update error and output storage for next iteration
  let lc1 : Lead_Compensator := { lead_compensator with error_prev := err }
  let lc2 : Lead_Compensator := { lc1 with command_prev := command }
  -- Saturate command
  let command_sat : ℚ :=
    if command > lc2.max then lc2.max
    else if command < lc2.min then lc2.min
    else command
  -- Apply rate limiter
  let command_sat : ℚ :=
    if command_sat > lc2.command_sat_prev + lc2.max_rate * lc2.T then
      lc2.command_sat_prev + lc2.max_rate * lc2.T
    else if command_sat < lc2.command_sat_prev - lc2.max_rate * lc2.T then
      lc2.command_sat_prev - lc2.max_rate * lc2.T
    else command_sat
  -- Remember saturated command at previous step
  let lc3 : Lead_Compensator := { lc2 with command_sat_prev := command_sat }
  (lc3, command_sat)

/-! ## `Object_Step` -/

/-- The value of the local `F_sat` of `Object_Step` after its saturation
`if`/`else if`/`else` (source lines 113-125): the force the integration
uses. -/
def Object_F_sat (obj : Object) (F : ℚ) : ℚ :=
  if F > obj.F_max then obj.F_max
  else if F < obj.F_min then obj.F_min
  else F

/-- The C function `Object_Step`, statement by statement.  The result is the
struct as the call leaves it, paired with the returned `obj->z`. -/
def Object_Step (obj : Object) (F Fd : ℚ) : Object × ℚ :=
  -- Apply saturation to the input force
  let F_sat : ℚ := Object_F_sat obj F
  -- Calculate the derivative dv/dt
  let dv_dt : ℚ := (F_sat - obj.k * obj.v - Fd) / obj.m
  -- Update the velocity and position of the object
  let obj1 : Object := { obj with v := obj.v + dv_dt * obj.T }
  let obj2 : Object := { obj1 with z := obj1.z + obj1.v * obj1.T }
  -- Return the updated position of the object
  (obj2, obj2.z)

/-! ## `main` -/

/-- The C constant `LENGTH`. -/
def LENGTH : Nat := 200

/-- The C constant `TIME_STEP`. -/
def TIME_STEP : ℚ := 1 / 10

/-- One line written by the `fprintf` of `main`: the four printed values. -/
structure Record where
  /-- First printed value, the simulation time `t` -/
  t : ℚ
  /-- Second printed value, `command` -/
  command : ℚ
  /-- Third printed value, `z` -/
  z : ℚ
  /-- Fourth printed value, `stp` -/
  stp : ℚ
  deriving DecidableEq, Repr

/-- The local variables of `main` that the loop reads or writes, with the
lines written to the file so far (oldest first). -/
structure MainState where
  /-- Current simulation time -/
  t : ℚ
  /-- Iteration counter -/
  i : Nat
  /-- Output of the control loop -/
  command : ℚ
  /-- Setpoint of the control loop -/
  stp : ℚ
  /-- Position fed back to the controller -/
  z : ℚ
  /-- The controller struct -/
  lead_compensator : Lead_Compensator
  /-- The plant struct -/
  obj : Object
  /-- Lines written to the file -/
  file : List Record
  deriving DecidableEq, Repr

/-- The initialiser of `lead_compensator` in `main` (source line 153). -/
def main_lead_compensator : Lead_Compensator :=
  { kl := 4 / 10, tau_p := 1, tau_z := 18, T := TIME_STEP, max := 10, min := -10,
    max_rate := 100, error_prev := 0, command_prev := 0, command_sat_prev := 0 }

/-- The initialiser of `obj` in `main` (source line 156). -/
def main_obj : Object :=
  { m := 10, k := 5 / 10, F_max := 10, F_min := -10, T := TIME_STEP, v := 0, z := 0 }

/-- The state of `main` when the `while` loop is first reached. -/
def main_init : MainState :=
  { t := 0, i := 0, command := 0, stp := 1, z := 0,
    lead_compensator := main_lead_compensator, obj := main_obj, file := [] }

/-- The body of the `while` loop of `main` (source lines 165-174). -/
def main_body (s : MainState) : MainState :=
  -- Execute the first control loop
  let r := Lead_Compensator_Step s.lead_compensator s.z s.stp
  let lead_compensator := r.1
  let command := r.2
  let q := Object_Step s.obj command 0
  let obj := q.1
  let z := q.2
  -- Log the current time and control loop values to the file
  let file := s.file ++ [{ t := s.t, command := command, z := z, stp := s.stp }]
  -- Increment the time and iteration counter
  { t := s.t + TIME_STEP, i := s.i + 1, command := command, stp := s.stp, z := z,
    lead_compensator := lead_compensator, obj := obj, file := file }

/-- The `while (i < LENGTH)` loop of `main`, run with a bound `fuel` on the
number of iterations: `none` when the bound is reached before the loop
condition fails. -/
def main_loop : Nat → MainState → Option MainState
  | 0, s => if s.i < LENGTH then none else some s
  | fuel + 1, s => if s.i < LENGTH then main_loop fuel (main_body s) else some s

/-- The program `main`: the loop run from the initial state. -/
def main (fuel : Nat) : Option MainState :=
  main_loop fuel main_init

/-! ## Definitions used to state the properties -/

/-- Clamp `x` to the band `[lo, hi]`, testing the upper bound first: `hi`
when `x > hi`, otherwise `lo` when `x < lo`, otherwise `x`. -/
def clampUpperFirst (lo hi x : ℚ) : ℚ :=
  if x > hi then hi else if x < lo then lo else x

/-- The usual clamp of `x` to `[lo, hi]`, the larger of `lo` and the smaller
of `x` and `hi`. -/
def clamp (x lo hi : ℚ) : ℚ :=
  Max.max lo (Min.min x hi)

/-- The unsaturated command of the discrete lead equation, as the
specification writes it, with `error = setpoint - measurement`. -/
def lead_command (lc : Lead_Compensator) (measurement setpoint : ℚ) : ℚ :=
  (lc.kl * (lc.T * (setpoint - measurement)
      + lc.tau_z * ((setpoint - measurement) - lc.error_prev))
    + lc.tau_p * lc.command_prev) / (lc.T + lc.tau_p)

/-- Saturation of a command to `[min, max]`, upper bound tested first. -/
def saturate (lc : Lead_Compensator) (c : ℚ) : ℚ :=
  clampUpperFirst lc.min lc.max c

/-- Rate limiting of a value against the stored `command_sat_prev`: the
clamp to `[command_sat_prev - max_rate*T, command_sat_prev + max_rate*T]`,
upper bound tested first. -/
def rateLimit (lc : Lead_Compensator) (x : ℚ) : ℚ :=
  clampUpperFirst (lc.command_sat_prev - lc.max_rate * lc.T)
    (lc.command_sat_prev + lc.max_rate * lc.T) x

/-- The stored `command_sat_prev` lies in `[min, max]`. -/
def SatPrevInRange (lc : Lead_Compensator) : Prop :=
  lc.min ≤ lc.command_sat_prev ∧ lc.command_sat_prev ≤ lc.max

instance (lc : Lead_Compensator) : Decidable (SatPrevInRange lc) := by
  unfold SatPrevInRange; infer_instance

/-- The three state fields are zero, as every initialiser of the struct in
the program leaves them. -/
def ZeroState (lc : Lead_Compensator) : Prop :=
  lc.error_prev = 0 ∧ lc.command_prev = 0 ∧ lc.command_sat_prev = 0

instance (lc : Lead_Compensator) : Decidable (ZeroState lc) := by
  unfold ZeroState; infer_instance

/-- A finite sequence of calls of `Lead_Compensator_Step` on one struct, one
call per `(measurement, setpoint)` pair in order: the struct after the last
call and the values the calls returned. -/
def Lead_Compensator_Run : Lead_Compensator → List (ℚ × ℚ) → Lead_Compensator × List ℚ
  | lc, [] => (lc, [])
  | lc, (measurement, setpoint) :: rest =>
    let r := Lead_Compensator_Step lc measurement setpoint
    let rr := Lead_Compensator_Run r.1 rest
    (rr.1, r.2 :: rr.2)

/-- The value of the local `dv_dt` of `Object_Step` (source line 128), from
the struct as the call finds it. -/
def Object_dv_dt (obj : Object) (F Fd : ℚ) : ℚ :=
  (Object_F_sat obj F - obj.k * obj.v - Fd) / obj.m

/-- The line the `fprintf` of one loop iteration of `main` writes (source
lines 166-170), from the state at the start of the iteration: the time
before its increment, and the command and position the two calls of the
iteration returned. -/
def main_record (s : MainState) : Record :=
  { t := s.t, command := (main_body s).command, z := (main_body s).z, stp := s.stp }

/-- What the driver of the specification carries from tick to tick: the
compensator, the plant, and the current plant position, which is the next
measurement. -/
structure Loop where
  /-- The compensator -/
  lead_compensator : Lead_Compensator
  /-- The plant -/
  obj : Object
  /-- The current plant position -/
  position : ℚ
  deriving DecidableEq, Repr

/-- The command of a tick, in the specification's words: the compensator
step called with (current plant position, setpoint). -/
def Loop_command (stp : ℚ) (s : Loop) : ℚ :=
  (Lead_Compensator_Step s.lead_compensator s.position stp).2

/-- One tick of the driver, in the specification's words: compensator step
with (current plant position, setpoint) gives the command, then plant step
with (command, disturbance 0) gives the new position. -/
def Loop_tick (stp : ℚ) (s : Loop) : Loop :=
  { lead_compensator := (Lead_Compensator_Step s.lead_compensator s.position stp).1
    obj := (Object_Step s.obj (Loop_command stp s) 0).1
    position := (Object_Step s.obj (Loop_command stp s) 0).2 }

/-- The driver state after `n` ticks. -/
def Loop_run (stp : ℚ) (n : Nat) (s : Loop) : Loop :=
  (Loop_tick stp)^[n] s

/-- The driver state of the reference scenario before the first tick: the
two initialisers of `main` and the initial position `0`. -/
def reference_loop : Loop :=
  { lead_compensator := main_lead_compensator, obj := main_obj, position := 0 }

/-- The compensator, plant and fed-back position of a state of `main`. -/
def MainState_toLoop (s : MainState) : Loop :=
  { lead_compensator := s.lead_compensator, obj := s.obj, position := s.z }

/-! ## Shared lemmas -/

/-- With `lo ≤ hi` the upper-first clamp lands in `[lo, hi]`. -/
lemma clampUpperFirst_mem (lo hi x : ℚ) (h : lo ≤ hi) :
    lo ≤ clampUpperFirst lo hi x ∧ clampUpperFirst lo hi x ≤ hi := by
  unfold clampUpperFirst
  split_ifs with h1 h2
  · exact ⟨h, le_refl hi⟩
  · exact ⟨le_refl lo, h⟩
  · exact ⟨not_lt.mp h2, not_lt.mp h1⟩

/-- With `lo ≤ hi` the upper-first clamp is the usual clamp. -/
lemma clampUpperFirst_eq_clamp (lo hi x : ℚ) (h : lo ≤ hi) :
    clampUpperFirst lo hi x = clamp x lo hi := by
  unfold clampUpperFirst clamp
  split_ifs with h1 h2
  · rw [min_eq_right (le_of_lt h1), max_eq_right h]
  · rw [min_eq_left (le_of_lt (lt_of_lt_of_le h2 h)), max_eq_left (le_of_lt h2)]
  · rw [min_eq_left (not_lt.mp h1), max_eq_right (not_lt.mp h2)]

/-- A value already in the band is left alone by the upper-first clamp. -/
lemma clampUpperFirst_of_mem (lo hi x : ℚ) (h1 : lo ≤ x) (h2 : x ≤ hi) :
    clampUpperFirst lo hi x = x := by
  unfold clampUpperFirst
  rw [if_neg (not_lt.mpr h2), if_neg (not_lt.mpr h1)]

/-- The value returned by `Lead_Compensator_Step` is the rate-limited
saturation of the unsaturated command. -/
lemma Lead_Compensator_Step_snd (lc : Lead_Compensator) (measurement setpoint : ℚ) :
    (Lead_Compensator_Step lc measurement setpoint).2
      = rateLimit lc (saturate lc (lead_command lc measurement setpoint)) := rfl

/-- The struct left by `Lead_Compensator_Step`, field by field. -/
lemma Lead_Compensator_Step_fst (lc : Lead_Compensator) (measurement setpoint : ℚ) :
    (Lead_Compensator_Step lc measurement setpoint).1
      = { lc with
          error_prev := setpoint - measurement
          command_prev := lead_command lc measurement setpoint
          command_sat_prev :=
            rateLimit lc (saturate lc (lead_command lc measurement setpoint)) } := rfl

/-- Rate limiting keeps a value of `[min, max]` in `[min, max]` when the
stored `command_sat_prev` is in `[min, max]` and `max_rate * T ≥ 0`. -/
lemma rateLimit_mem_range (lc : Lead_Compensator) (x : ℚ)
    (hr : 0 ≤ lc.max_rate * lc.T) (hp : SatPrevInRange lc)
    (hx : lc.min ≤ x ∧ x ≤ lc.max) :
    lc.min ≤ rateLimit lc x ∧ rateLimit lc x ≤ lc.max := by
  obtain ⟨hp1, hp2⟩ := hp
  obtain ⟨hx1, hx2⟩ := hx
  unfold rateLimit clampUpperFirst
  split_ifs with h1 h2
  · constructor <;> linarith
  · constructor <;> linarith
  · exact ⟨hx1, hx2⟩

/-- Rate limiting lands in the band around the stored `command_sat_prev`
when `max_rate * T ≥ 0`. -/
lemma rateLimit_mem_band (lc : Lead_Compensator) (x : ℚ) (hr : 0 ≤ lc.max_rate * lc.T) :
    lc.command_sat_prev - lc.max_rate * lc.T ≤ rateLimit lc x
      ∧ rateLimit lc x ≤ lc.command_sat_prev + lc.max_rate * lc.T :=
  clampUpperFirst_mem _ _ x (by linarith)

/-- One call preserves `SatPrevInRange`. -/
lemma Lead_Compensator_Step_preserves (lc : Lead_Compensator) (measurement setpoint : ℚ)
    (hmm : lc.min ≤ lc.max) (hr : 0 ≤ lc.max_rate * lc.T) (hp : SatPrevInRange lc) :
    SatPrevInRange (Lead_Compensator_Step lc measurement setpoint).1 := by
  rw [Lead_Compensator_Step_fst]
  exact rateLimit_mem_range lc _ hr hp (clampUpperFirst_mem _ _ _ hmm)

/-- One call moves `command_sat_prev` by at most `max_rate * T`. -/
lemma Lead_Compensator_Step_abs_le (lc : Lead_Compensator) (measurement setpoint : ℚ)
    (hr : 0 ≤ lc.max_rate * lc.T) :
    |(Lead_Compensator_Step lc measurement setpoint).1.command_sat_prev - lc.command_sat_prev|
      ≤ lc.max_rate * lc.T := by
  rw [Lead_Compensator_Step_fst]
  have h := rateLimit_mem_band lc (saturate lc (lead_command lc measurement setpoint)) hr
  rw [abs_le]
  constructor <;> simp only <;> linarith [h.1, h.2]

/-- A sequence of calls leaves the seven parameters as they were. -/
lemma Lead_Compensator_Run_params (inputs : List (ℚ × ℚ)) (lc : Lead_Compensator) :
    (Lead_Compensator_Run lc inputs).1.min = lc.min
      ∧ (Lead_Compensator_Run lc inputs).1.max = lc.max
      ∧ (Lead_Compensator_Run lc inputs).1.max_rate = lc.max_rate
      ∧ (Lead_Compensator_Run lc inputs).1.T = lc.T := by
  induction inputs generalizing lc with
  | nil => exact ⟨rfl, rfl, rfl, rfl⟩
  | cons a rest ih =>
    obtain ⟨measurement, setpoint⟩ := a
    exact ih (Lead_Compensator_Step lc measurement setpoint).1

/-- A sequence of calls preserves `SatPrevInRange`. -/
lemma Lead_Compensator_Run_preserves (inputs : List (ℚ × ℚ)) (lc : Lead_Compensator)
    (hmm : lc.min ≤ lc.max) (hr : 0 ≤ lc.max_rate * lc.T) (hp : SatPrevInRange lc) :
    SatPrevInRange (Lead_Compensator_Run lc inputs).1 := by
  induction inputs generalizing lc with
  | nil => exact hp
  | cons a rest ih =>
    obtain ⟨measurement, setpoint⟩ := a
    exact ih (Lead_Compensator_Step lc measurement setpoint).1 hmm hr
      (Lead_Compensator_Step_preserves lc measurement setpoint hmm hr hp)

/-- The force `Object_Step` integrates with is the upper-first clamp of the
raw force to `[F_min, F_max]`. -/
lemma Object_F_sat_eq (obj : Object) (F : ℚ) :
    Object_F_sat obj F = clampUpperFirst obj.F_min obj.F_max F := rfl

/-- Two raw forces with the same saturated force give the same call. -/
lemma Object_Step_congr (obj : Object) (F1 F2 Fd : ℚ)
    (h : Object_F_sat obj F1 = Object_F_sat obj F2) :
    Object_Step obj F1 Fd = Object_Step obj F2 Fd := by
  unfold Object_Step
  rw [h]

/-- With zero stored error and command and equal measurement and setpoint
the unsaturated command is zero, the divisor `T + tau_p` being nonzero. -/
lemma lead_command_zero (lc : Lead_Compensator) (x : ℚ) (hdiv : lc.T + lc.tau_p ≠ 0)
    (he : lc.error_prev = 0) (hc : lc.command_prev = 0) :
    lead_command lc x x = 0 := by
  unfold lead_command
  rw [div_eq_iff hdiv, he, hc]
  ring

/-- With enough fuel the loop of `main` runs `LENGTH - i` more iterations
and stops; with less it does not finish. -/
lemma main_loop_eq (fuel : Nat) (s : MainState) (h : s.i ≤ LENGTH) :
    main_loop fuel s
      = if fuel < LENGTH - s.i then none else some (main_body^[LENGTH - s.i] s) := by
  induction fuel generalizing s with
  | zero =>
    unfold main_loop
    by_cases hlt : s.i < LENGTH
    · rw [if_pos hlt, if_pos (by omega)]
    · have h0 : LENGTH - s.i = 0 := by omega
      rw [if_neg hlt, h0, if_neg (by omega)]
      rfl
  | succ fuel ih =>
    unfold main_loop
    by_cases hlt : s.i < LENGTH
    · have hi : (main_body s).i = s.i + 1 := rfl
      have hstep : LENGTH - s.i = (LENGTH - (s.i + 1)) + 1 := by omega
      rw [if_pos hlt, ih (main_body s) (by rw [hi]; omega), hi, hstep,
        Function.iterate_succ_apply]
      by_cases hf : fuel < LENGTH - (s.i + 1)
      · rw [if_pos hf, if_pos (by omega)]
      · rw [if_neg hf, if_neg (by omega)]
    · have h0 : LENGTH - s.i = 0 := by omega
      rw [if_neg hlt, h0, if_neg (by omega)]
      rfl

/-- The program `main` finishes exactly when the fuel is at least `LENGTH`,
and then has run the loop body `LENGTH` times. -/
lemma main_eq (fuel : Nat) :
    main fuel = if fuel < LENGTH then none else some (main_body^[LENGTH] main_init) :=
  main_loop_eq fuel main_init (Nat.zero_le _)

/-- Counter, time and setpoint after `n` iterations of the loop body. -/
lemma main_iter_fields (n : Nat) (s : MainState) :
    (main_body^[n] s).i = s.i + n
      ∧ (main_body^[n] s).t = s.t + n * TIME_STEP
      ∧ (main_body^[n] s).stp = s.stp := by
  induction n with
  | zero => simp
  | succ n ih =>
    obtain ⟨h1, h2, h3⟩ := ih
    rw [Function.iterate_succ_apply']
    refine ⟨?_, ?_, ?_⟩
    · show (main_body^[n] s).i + 1 = s.i + (n + 1)
      rw [h1, Nat.add_assoc]
    · show (main_body^[n] s).t + TIME_STEP = s.t + ((n + 1 : ℕ) : ℚ) * TIME_STEP
      rw [h2]
      push_cast
      ring
    · show (main_body^[n] s).stp = s.stp
      exact h3

/-- One iteration appends one record to the file. -/
lemma main_body_file (s : MainState) : (main_body s).file = s.file ++ [main_record s] := rfl

/-- After `n` iterations the file holds the old lines followed by the `n`
records of the iterations, in order. -/
lemma main_iter_file (n : Nat) (s : MainState) :
    (main_body^[n] s).file
      = s.file ++ (List.range n).map (fun i => main_record (main_body^[i] s)) := by
  induction n with
  | zero => simp
  | succ n ih =>
    rw [Function.iterate_succ_apply', main_body_file, ih, List.range_succ, List.map_append,
      List.append_assoc]
    rfl

/-- The file of the finished run, line by line. -/
lemma main_file_get (n i : Nat) (h : i < n) :
    (main_body^[n] main_init).file[i]? = some (main_record (main_body^[i] main_init)) := by
  rw [main_iter_file]
  show ([] ++ (List.range n).map (fun i => main_record (main_body^[i] main_init)))[i]? = _
  rw [List.nil_append, List.getElem?_map, List.getElem?_range h]
  rfl

/-- One iteration of the loop body of `main` is one tick of the driver. -/
lemma MainState_toLoop_body (s : MainState) :
    MainState_toLoop (main_body s) = Loop_tick s.stp (MainState_toLoop s) := rfl

/-- The compensator, plant and position of `main` after `n` iterations are
those of the driver after `n` ticks. -/
lemma MainState_toLoop_iter (n : Nat) (s : MainState) :
    MainState_toLoop (main_body^[n] s) = Loop_run s.stp n (MainState_toLoop s) := by
  induction n with
  | zero => rfl
  | succ n ih =>
    rw [Function.iterate_succ_apply', MainState_toLoop_body, ih, (main_iter_fields n s).2.2]
    unfold Loop_run
    rw [Function.iterate_succ_apply']

/-- The state of `main` before its first iteration is the reference driver
state. -/
lemma MainState_toLoop_init : MainState_toLoop main_init = reference_loop := rfl

/-- Ticks of the driver keep the bounds of the compensator and of the plant,
and keep `command_sat_prev` in `[min, max]`. -/
lemma Loop_run_invariant (stp : ℚ) (n : Nat) (s : Loop)
    (hmm : s.lead_compensator.min ≤ s.lead_compensator.max)
    (hr : 0 ≤ s.lead_compensator.max_rate * s.lead_compensator.T)
    (hp : SatPrevInRange s.lead_compensator) :
    SatPrevInRange (Loop_run stp n s).lead_compensator
      ∧ (Loop_run stp n s).lead_compensator.min = s.lead_compensator.min
      ∧ (Loop_run stp n s).lead_compensator.max = s.lead_compensator.max
      ∧ (Loop_run stp n s).lead_compensator.max_rate = s.lead_compensator.max_rate
      ∧ (Loop_run stp n s).lead_compensator.T = s.lead_compensator.T
      ∧ (Loop_run stp n s).obj.F_min = s.obj.F_min
      ∧ (Loop_run stp n s).obj.F_max = s.obj.F_max := by
  induction n with
  | zero => exact ⟨hp, rfl, rfl, rfl, rfl, rfl, rfl⟩
  | succ n ih =>
    obtain ⟨h0, h1, h2, h3, h4, h5, h6⟩ := ih
    have hrun : Loop_run stp (n + 1) s = Loop_tick stp (Loop_run stp n s) := by
      unfold Loop_run
      rw [Function.iterate_succ_apply']
    rw [hrun]
    refine ⟨?_, h1, h2, h3, h4, h5, h6⟩
    exact Lead_Compensator_Step_preserves _ _ _ (by rw [h1, h2]; exact hmm)
      (by rw [h3, h4]; exact hr) h0

/-- When the bounds of the compensator fit inside those of the plant and
`command_sat_prev` starts in `[min, max]`, the plant integrates the command
of every tick unclamped. -/
lemma Loop_run_F_sat (stp : ℚ) (n : Nat) (s : Loop)
    (hlo : s.obj.F_min ≤ s.lead_compensator.min)
    (hmm : s.lead_compensator.min ≤ s.lead_compensator.max)
    (hhi : s.lead_compensator.max ≤ s.obj.F_max)
    (hr : 0 ≤ s.lead_compensator.max_rate * s.lead_compensator.T)
    (hp : SatPrevInRange s.lead_compensator) :
    Object_F_sat (Loop_run stp n s).obj (Loop_command stp (Loop_run stp n s))
      = Loop_command stp (Loop_run stp n s) := by
  obtain ⟨h0, h1, h2, h3, h4, h5, h6⟩ := Loop_run_invariant stp n s hmm hr hp
  have hc : (Loop_run stp n s).lead_compensator.min ≤ Loop_command stp (Loop_run stp n s)
      ∧ Loop_command stp (Loop_run stp n s) ≤ (Loop_run stp n s).lead_compensator.max := by
    unfold Loop_command
    rw [Lead_Compensator_Step_snd]
    exact rateLimit_mem_range _ _ (by rw [h3, h4]; exact hr) h0
      (clampUpperFirst_mem _ _ _ (by rw [h1, h2]; exact hmm))
  rw [h1, h2] at hc
  rw [Object_F_sat_eq, h5, h6]
  exact clampUpperFirst_of_mem _ _ _ (le_trans hlo hc.1) (le_trans hc.2 hhi)

/-- The stored error and command after a sequence of calls depend only on
the four filter parameters, the stored error and command, and the inputs. -/
lemma Lead_Compensator_Run_filter (inputs : List (ℚ × ℚ)) (a b : Lead_Compensator)
    (hkl : a.kl = b.kl) (hp : a.tau_p = b.tau_p) (hz : a.tau_z = b.tau_z) (hT : a.T = b.T)
    (he : a.error_prev = b.error_prev) (hc : a.command_prev = b.command_prev) :
    (Lead_Compensator_Run a inputs).1.error_prev = (Lead_Compensator_Run b inputs).1.error_prev
      ∧ (Lead_Compensator_Run a inputs).1.command_prev
        = (Lead_Compensator_Run b inputs).1.command_prev := by
  induction inputs generalizing a b with
  | nil => exact ⟨he, hc⟩
  | cons x rest ih =>
    obtain ⟨measurement, setpoint⟩ := x
    have hcmd : lead_command a measurement setpoint = lead_command b measurement setpoint := by
      unfold lead_command
      rw [hkl, hp, hz, hT, he, hc]
    exact ih (Lead_Compensator_Step a measurement setpoint).1
      (Lead_Compensator_Step b measurement setpoint).1 hkl hp hz hT rfl hcmd

/-- The record of an iteration carries the position the iteration leaves in
`z`, which is the plant's stored position. -/
lemma main_record_z (s : MainState) :
    (main_record s).z = (main_body s).z ∧ (main_body s).z = (main_body s).obj.z :=
  ⟨rfl, rfl⟩

/-- The record of an iteration carries the setpoint of the state. -/
lemma main_record_stp (s : MainState) : (main_record s).stp = s.stp := rfl

/-- The position after the 200 ticks of the reference run, evaluated in exact
arithmetic, is within `0.05` of `1`. -/
lemma main_final_position : |(main_body^[200] main_init).z - 1| ≤ 5 / 100 := by
  decide!

/-! ## Output bounds of `Lead_Compensator_Step` -/

/-- C1, as stated, fails: with `min = -10 ≤ max = 10`, `max_rate = 1 ≥ 0`,
`T = 1 > 0` and a stored `command_sat_prev = -100`, the call with
measurement and setpoint `0` saturates the command `0` to `0`, the rate
limiter cuts it to `-100 + 1 = -99`, and `-99` is returned, below `min`. -/
theorem Lead_Compensator_Step_output_escapes_range :
    (-10 : ℚ) ≤ 10 ∧ (0 : ℚ) ≤ 1 ∧ (0 : ℚ) < 1
      ∧ (Lead_Compensator_Step
          { kl := 1, tau_p := 1, tau_z := 1, T := 1, max := 10, min := -10, max_rate := 1,
            error_prev := 0, command_prev := 0, command_sat_prev := -100 } 0 0).2 = -99
      ∧ ¬ ((-10 : ℚ) ≤ (Lead_Compensator_Step
          { kl := 1, tau_p := 1, tau_z := 1, T := 1, max := 10, min := -10, max_rate := 1,
            error_prev := 0, command_prev := 0, command_sat_prev := -100 } 0 0).2) := by
  norm_num [Lead_Compensator_Step]

/-- C1, amended: for every parameter set with `min ≤ max`, `max_rate ≥ 0` and
`T > 0`, every prior state whose `command_sat_prev` lies in `[min, max]`
(any `error_prev` and `command_prev`) and every measurement and setpoint,
the value returned by `Lead_Compensator_Step` lies in `[min, max]`. -/
theorem Lead_Compensator_Step_output_in_range (lc : Lead_Compensator)
    (measurement setpoint : ℚ) (hmm : lc.min ≤ lc.max) (hrate : 0 ≤ lc.max_rate)
    (hT : 0 < lc.T) (hp : lc.min ≤ lc.command_sat_prev ∧ lc.command_sat_prev ≤ lc.max) :
    lc.min ≤ (Lead_Compensator_Step lc measurement setpoint).2
      ∧ (Lead_Compensator_Step lc measurement setpoint).2 ≤ lc.max := by
  rw [Lead_Compensator_Step_snd]
  exact rateLimit_mem_range lc _ (mul_nonneg hrate (le_of_lt hT)) hp
    (clampUpperFirst_mem _ _ _ hmm)

/-- Witness of C1 amended, at the controller of `main` with measurement `0`
and setpoint `1`. -/
theorem Lead_Compensator_Step_output_in_range_witness :
    main_lead_compensator.min ≤ (Lead_Compensator_Step main_lead_compensator 0 1).2
      ∧ (Lead_Compensator_Step main_lead_compensator 0 1).2 ≤ main_lead_compensator.max :=
  Lead_Compensator_Step_output_in_range main_lead_compensator 0 1
    (by norm_num [main_lead_compensator]) (by norm_num [main_lead_compensator])
    (by norm_num [main_lead_compensator, TIME_STEP]) (by norm_num [main_lead_compensator])

/-- C2: for every parameter set with `max_rate * T ≥ 0`, every prior state
and every measurement and setpoint, the value returned by
`Lead_Compensator_Step` lies in `[p - max_rate*T, p + max_rate*T]`, `p` being
`command_sat_prev` before the call. -/
theorem Lead_Compensator_Step_output_in_rate_band (lc : Lead_Compensator)
    (measurement setpoint : ℚ) (hr : 0 ≤ lc.max_rate * lc.T) :
    lc.command_sat_prev - lc.max_rate * lc.T
        ≤ (Lead_Compensator_Step lc measurement setpoint).2
      ∧ (Lead_Compensator_Step lc measurement setpoint).2
        ≤ lc.command_sat_prev + lc.max_rate * lc.T := by
  rw [Lead_Compensator_Step_snd]
  exact rateLimit_mem_band lc _ hr

/-- Witness of C2: a stored `command_sat_prev = 5`, `max_rate * T = 1/2` and
an error of `-100`; the returned value is within `[9/2, 11/2]`. -/
theorem Lead_Compensator_Step_output_in_rate_band_witness :
    (5 : ℚ) - 5 * (1 / 10)
        ≤ (Lead_Compensator_Step
            { kl := 4 / 10, tau_p := 1, tau_z := 18, T := 1 / 10, max := 10, min := -10,
              max_rate := 5, error_prev := 0, command_prev := 0, command_sat_prev := 5 }
            100 0).2
      ∧ (Lead_Compensator_Step
            { kl := 4 / 10, tau_p := 1, tau_z := 18, T := 1 / 10, max := 10, min := -10,
              max_rate := 5, error_prev := 0, command_prev := 0, command_sat_prev := 5 }
            100 0).2
        ≤ 5 + 5 * (1 / 10) :=
  Lead_Compensator_Step_output_in_rate_band
    { kl := 4 / 10, tau_p := 1, tau_z := 18, T := 1 / 10, max := 10, min := -10,
      max_rate := 5, error_prev := 0, command_prev := 0, command_sat_prev := 5 }
    100 0 (by norm_num)

/-- C3: `command_sat_prev ∈ [min, max]` is an invariant.  When `min ≤ max` and
`max_rate * T ≥ 0`, (1) `Lead_Compensator_Step` maps every state satisfying
it to a state satisfying it, for every measurement and setpoint; (2) from a
zero-initialised state with `min ≤ 0 ≤ max` it holds after every finite
sequence of calls, and the next call after any such sequence changes
`command_sat_prev` by at most `max_rate * T` in absolute value; (3) a call
from any state changes `command_sat_prev` by at most `max_rate * T` in
absolute value. -/
theorem Lead_Compensator_command_sat_prev_invariant (lc : Lead_Compensator)
    (hmm : lc.min ≤ lc.max) (hr : 0 ≤ lc.max_rate * lc.T) :
    (∀ measurement setpoint : ℚ, SatPrevInRange lc →
        SatPrevInRange (Lead_Compensator_Step lc measurement setpoint).1)
      ∧ (ZeroState lc → lc.min ≤ 0 → 0 ≤ lc.max → ∀ inputs : List (ℚ × ℚ),
          SatPrevInRange (Lead_Compensator_Run lc inputs).1
            ∧ ∀ measurement setpoint : ℚ,
              |(Lead_Compensator_Step (Lead_Compensator_Run lc inputs).1
                    measurement setpoint).1.command_sat_prev
                  - (Lead_Compensator_Run lc inputs).1.command_sat_prev|
                ≤ lc.max_rate * lc.T)
      ∧ (∀ measurement setpoint : ℚ,
          |(Lead_Compensator_Step lc measurement setpoint).1.command_sat_prev
              - lc.command_sat_prev| ≤ lc.max_rate * lc.T) := by
  refine ⟨fun measurement setpoint hp =>
      Lead_Compensator_Step_preserves lc measurement setpoint hmm hr hp, ?_,
    fun measurement setpoint => Lead_Compensator_Step_abs_le lc measurement setpoint hr⟩
  intro hz hmin hmax inputs
  have hp : SatPrevInRange lc := by
    obtain ⟨_, _, h0⟩ := hz
    unfold SatPrevInRange
    rw [h0]
    exact ⟨hmin, hmax⟩
  refine ⟨Lead_Compensator_Run_preserves inputs lc hmm hr hp, ?_⟩
  intro measurement setpoint
  obtain ⟨_, _, h3, h4⟩ := Lead_Compensator_Run_params inputs lc
  have h := Lead_Compensator_Step_abs_le (Lead_Compensator_Run lc inputs).1
    measurement setpoint (by rw [h3, h4]; exact hr)
  rw [h3, h4] at h
  exact h

/-- Witness of C3, at the controller of `main` (zero-initialised,
`min = -10 ≤ 0 ≤ 10 = max`, `max_rate * T = 10`) after the two calls with
inputs `(0, 1)` and `(1/2, 1)`. -/
theorem Lead_Compensator_command_sat_prev_invariant_witness :
    main_lead_compensator.min ≤ main_lead_compensator.max
      ∧ 0 ≤ main_lead_compensator.max_rate * main_lead_compensator.T
      ∧ ZeroState main_lead_compensator
      ∧ SatPrevInRange (Lead_Compensator_Run main_lead_compensator [(0, 1), (1 / 2, 1)]).1 :=
  ⟨by norm_num [main_lead_compensator], by norm_num [main_lead_compensator, TIME_STEP],
    ⟨rfl, rfl, rfl⟩,
    ((Lead_Compensator_command_sat_prev_invariant main_lead_compensator
        (by norm_num [main_lead_compensator])
        (by norm_num [main_lead_compensator, TIME_STEP])).2.1
      ⟨rfl, rfl, rfl⟩ (by norm_num [main_lead_compensator])
      (by norm_num [main_lead_compensator]) [(0, 1), (1 / 2, 1)]).1⟩

/-! ## The filter recursion and the order of the two limiters -/

/-- C4: for every state and inputs, after `Lead_Compensator_Step` the stored
`error_prev` is `setpoint - measurement` and the stored `command_prev` is
`(kl*(T*e + tau_z*(e - error_prev_old)) + tau_p*command_prev_old) / (T + tau_p)`
with `e = setpoint - measurement`: the unsaturated command, computed from the
old state. -/
theorem Lead_Compensator_Step_filter_state (lc : Lead_Compensator)
    (measurement setpoint : ℚ) :
    (Lead_Compensator_Step lc measurement setpoint).1.error_prev = setpoint - measurement
      ∧ (Lead_Compensator_Step lc measurement setpoint).1.command_prev
        = (lc.kl * (lc.T * (setpoint - measurement)
              + lc.tau_z * ((setpoint - measurement) - lc.error_prev))
            + lc.tau_p * lc.command_prev) / (lc.T + lc.tau_p) := by
  rw [Lead_Compensator_Step_fst]
  exact ⟨rfl, rfl⟩

/-- C5: for every state and inputs, the value returned by
`Lead_Compensator_Step` is `rateLimit (saturate c)`, where `c` is the
unsaturated command, `saturate` clamps to `[min, max]` and `rateLimit` clamps
to `[p - max_rate*T, p + max_rate*T]` with `p` the old `command_sat_prev`,
each testing its upper bound first; the rate limiter is applied to the
saturated value; and the new `command_sat_prev` is the returned value. -/
theorem Lead_Compensator_Step_saturate_then_rateLimit (lc : Lead_Compensator)
    (measurement setpoint : ℚ) :
    (Lead_Compensator_Step lc measurement setpoint).2
        = clampUpperFirst (lc.command_sat_prev - lc.max_rate * lc.T)
            (lc.command_sat_prev + lc.max_rate * lc.T)
            (clampUpperFirst lc.min lc.max (lead_command lc measurement setpoint))
      ∧ (Lead_Compensator_Step lc measurement setpoint).1.command_sat_prev
        = (Lead_Compensator_Step lc measurement setpoint).2 := by
  unfold Lead_Compensator_Step lead_command clampUpperFirst
  exact ⟨rfl, rfl⟩

/-! ## `Object_Step` -/

/-- C6: for every plant with `F_min ≤ F_max` and every raw force `F`, the
force `F_sat` that `Object_Step` integrates with lies in `[F_min, F_max]` and
equals `clamp(F, F_min, F_max)`; the new state and the returned position are
those of `Object_Step` called with `clamp(F, F_min, F_max)`; and two raw
forces both above `F_max`, or both below `F_min`, give the same new state
and returned position. -/
theorem Object_Step_force_clamped (obj : Object) (F Fd : ℚ) (h : obj.F_min ≤ obj.F_max) :
    (obj.F_min ≤ Object_F_sat obj F ∧ Object_F_sat obj F ≤ obj.F_max)
      ∧ Object_F_sat obj F = clamp F obj.F_min obj.F_max
      ∧ Object_Step obj F Fd = Object_Step obj (clamp F obj.F_min obj.F_max) Fd
      ∧ (∀ F1 F2 : ℚ, F1 > obj.F_max → F2 > obj.F_max →
          Object_Step obj F1 Fd = Object_Step obj F2 Fd)
      ∧ (∀ F1 F2 : ℚ, F1 < obj.F_min → F2 < obj.F_min →
          Object_Step obj F1 Fd = Object_Step obj F2 Fd) := by
  have hmem := clampUpperFirst_mem obj.F_min obj.F_max F h
  have hcl := clampUpperFirst_eq_clamp obj.F_min obj.F_max F h
  refine ⟨hmem, hcl, ?_, ?_, ?_⟩
  · apply Object_Step_congr
    rw [Object_F_sat_eq, Object_F_sat_eq, ← hcl,
      clampUpperFirst_of_mem _ _ _ hmem.1 hmem.2]
  · intro F1 F2 h1 h2
    apply Object_Step_congr
    unfold Object_F_sat
    rw [if_pos h1, if_pos h2]
  · intro F1 F2 h1 h2
    apply Object_Step_congr
    unfold Object_F_sat
    rw [if_neg (not_lt.mpr (le_of_lt (lt_of_lt_of_le h1 h))), if_pos h1,
      if_neg (not_lt.mpr (le_of_lt (lt_of_lt_of_le h2 h))), if_pos h2]

/-- Witness of C6, at the plant of `main`: a raw force of `25` is integrated
as `10`, and the raw forces `25` and `1000` give the same call. -/
theorem Object_Step_force_clamped_witness :
    main_obj.F_min ≤ main_obj.F_max
      ∧ Object_F_sat main_obj 25 = clamp 25 main_obj.F_min main_obj.F_max
      ∧ Object_Step main_obj 25 0 = Object_Step main_obj 1000 0 :=
  ⟨by norm_num [main_obj],
    (Object_Step_force_clamped main_obj 25 0 (by norm_num [main_obj])).2.1,
    (Object_Step_force_clamped main_obj 25 0 (by norm_num [main_obj])).2.2.2.1 25 1000
      (by norm_num [main_obj]) (by norm_num [main_obj])⟩

/-- C7: for every plant state and inputs `F`, `Fd`, `Object_Step` sets
`v_new = v + ((F_sat - k*v - Fd)/m)*T` with `F_sat` the clamped force, then
`z_new = z + v_new*T` with the updated velocity, and returns `z_new`; `Fd`
enters the formula as passed, with no clamp. -/
theorem Object_Step_euler (obj : Object) (F Fd : ℚ) :
    (Object_Step obj F Fd).1.v
        = obj.v + ((Object_F_sat obj F - obj.k * obj.v - Fd) / obj.m) * obj.T
      ∧ (Object_Step obj F Fd).1.z
        = obj.z + (obj.v + ((Object_F_sat obj F - obj.k * obj.v - Fd) / obj.m) * obj.T) * obj.T
      ∧ (Object_Step obj F Fd).1.z = obj.z + (Object_Step obj F Fd).1.v * obj.T
      ∧ (Object_Step obj F Fd).2 = (Object_Step obj F Fd).1.z :=
  ⟨rfl, rfl, rfl, rfl⟩

/-! ## Zero input and the rate-limit boundary -/

/-- C8, as stated, fails, in two ways.  (a) A stored `command_sat_prev = 5`
with `max_rate * T = 1`, zero `error_prev` and `command_prev`, measurement
equal to setpoint: the command `0` is rate-limited to `5 - 1 = 4`, which is
returned.  (b) Bounds `min = 1`, `max = 10` that exclude `0`, an all-zero
state: the command `0` is saturated to `1`, which is returned. -/
theorem Lead_Compensator_Step_zero_input_nonzero_output :
    (Lead_Compensator_Step
        { kl := 4 / 10, tau_p := 1, tau_z := 18, T := 1 / 10, max := 10, min := -10,
          max_rate := 10, error_prev := 0, command_prev := 0, command_sat_prev := 5 }
        3 3).2 = 4
      ∧ (Lead_Compensator_Step
        { kl := 4 / 10, tau_p := 1, tau_z := 18, T := 1 / 10, max := 10, min := 1,
          max_rate := 100, error_prev := 0, command_prev := 0, command_sat_prev := 0 }
        3 3).2 = 1 := by
  norm_num [Lead_Compensator_Step]

/-- C8, amended: for every parameter set with `T + tau_p ≠ 0` and
`min ≤ 0 ≤ max`, and every state with `error_prev = 0`, `command_prev = 0`
and `|command_sat_prev| ≤ max_rate * T`, if `Lead_Compensator_Step` is called
on every tick with measurement equal to setpoint, it returns `0` on every
tick. -/
theorem Lead_Compensator_zero_input_steady_state (xs : List ℚ) (lc : Lead_Compensator)
    (hdiv : lc.T + lc.tau_p ≠ 0) (hmin : lc.min ≤ 0) (hmax : 0 ≤ lc.max)
    (he : lc.error_prev = 0) (hc : lc.command_prev = 0)
    (hp : |lc.command_sat_prev| ≤ lc.max_rate * lc.T) :
    (Lead_Compensator_Run lc (xs.map fun x => (x, x))).2 = List.replicate xs.length 0 := by
  induction xs generalizing lc with
  | nil => rfl
  | cons x rest ih =>
    have hout : (Lead_Compensator_Step lc x x).2 = 0 := by
      rw [Lead_Compensator_Step_snd, lead_command_zero lc x hdiv he hc]
      have hs : saturate lc 0 = 0 := clampUpperFirst_of_mem _ _ _ hmin hmax
      rw [hs]
      obtain ⟨h1, h2⟩ := abs_le.mp hp
      exact clampUpperFirst_of_mem _ _ _ (by linarith) (by linarith)
    have hnext := ih (Lead_Compensator_Step lc x x).1 hdiv hmin hmax (sub_self x)
      (lead_command_zero lc x hdiv he hc)
      (by
        have h0 : (Lead_Compensator_Step lc x x).1.command_sat_prev = 0 := hout
        rw [h0, abs_zero]
        exact le_trans (abs_nonneg _) hp)
    simp only [List.map_cons, Lead_Compensator_Run, List.length_cons, List.replicate_succ]
    rw [hout, hnext]

/-- Witness of C8 amended, at the controller of `main` called three times
with measurement equal to setpoint (`1`, `1`, then `7`). -/
theorem Lead_Compensator_zero_input_steady_state_witness :
    main_lead_compensator.T + main_lead_compensator.tau_p ≠ 0
      ∧ (Lead_Compensator_Run main_lead_compensator [(1, 1), (1, 1), (7, 7)]).2 = [0, 0, 0] :=
  ⟨by norm_num [main_lead_compensator, TIME_STEP],
    Lead_Compensator_zero_input_steady_state [1, 1, 7] main_lead_compensator
      (by norm_num [main_lead_compensator, TIME_STEP])
      (by norm_num [main_lead_compensator]) (by norm_num [main_lead_compensator]) rfl rfl
      (by norm_num [main_lead_compensator, TIME_STEP])⟩

/-- C9, as stated, fails: with `max_rate * T = -1`, a stored
`command_sat_prev = 0` and a saturated command `0`, the saturated command is
below `command_sat_prev - max_rate*T = 1`, yet the upper test
`0 > command_sat_prev + max_rate*T = -1` fires first and `-1` is returned,
not `1`. -/
theorem Lead_Compensator_Step_lower_boundary_missed :
    saturate
        { kl := 1, tau_p := 1, tau_z := 1, T := 1, max := 10, min := -10, max_rate := -1,
          error_prev := 0, command_prev := 0, command_sat_prev := 0 }
        (lead_command
          { kl := 1, tau_p := 1, tau_z := 1, T := 1, max := 10, min := -10, max_rate := -1,
            error_prev := 0, command_prev := 0, command_sat_prev := 0 } 0 0)
        < (0 : ℚ) - (-1) * 1
      ∧ (Lead_Compensator_Step
        { kl := 1, tau_p := 1, tau_z := 1, T := 1, max := 10, min := -10, max_rate := -1,
          error_prev := 0, command_prev := 0, command_sat_prev := 0 } 0 0).2 = -1
      ∧ (Lead_Compensator_Step
        { kl := 1, tau_p := 1, tau_z := 1, T := 1, max := 10, min := -10, max_rate := -1,
          error_prev := 0, command_prev := 0, command_sat_prev := 0 } 0 0).2
        ≠ (0 : ℚ) - (-1) * 1 := by
  norm_num [Lead_Compensator_Step, saturate, lead_command, clampUpperFirst]

/-- C9, amended: for every state and inputs, if the saturated command
exceeds `command_sat_prev + max_rate*T` then `Lead_Compensator_Step` returns
exactly `command_sat_prev + max_rate*T`; when `max_rate*T ≥ 0`, if the
saturated command is below `command_sat_prev - max_rate*T` it returns exactly
`command_sat_prev - max_rate*T`, and in either case the output is at
distance exactly `max_rate*T` from the old `command_sat_prev`. -/
theorem Lead_Compensator_Step_rate_limit_boundary (lc : Lead_Compensator)
    (measurement setpoint : ℚ) :
    (saturate lc (lead_command lc measurement setpoint)
          > lc.command_sat_prev + lc.max_rate * lc.T →
        (Lead_Compensator_Step lc measurement setpoint).2
          = lc.command_sat_prev + lc.max_rate * lc.T)
      ∧ (0 ≤ lc.max_rate * lc.T →
          saturate lc (lead_command lc measurement setpoint)
            < lc.command_sat_prev - lc.max_rate * lc.T →
          (Lead_Compensator_Step lc measurement setpoint).2
            = lc.command_sat_prev - lc.max_rate * lc.T)
      ∧ (0 ≤ lc.max_rate * lc.T →
          (saturate lc (lead_command lc measurement setpoint)
              > lc.command_sat_prev + lc.max_rate * lc.T
            ∨ saturate lc (lead_command lc measurement setpoint)
              < lc.command_sat_prev - lc.max_rate * lc.T) →
          |(Lead_Compensator_Step lc measurement setpoint).2 - lc.command_sat_prev|
            = lc.max_rate * lc.T) := by
  have hup : saturate lc (lead_command lc measurement setpoint)
        > lc.command_sat_prev + lc.max_rate * lc.T →
      (Lead_Compensator_Step lc measurement setpoint).2
        = lc.command_sat_prev + lc.max_rate * lc.T := by
    intro h
    rw [Lead_Compensator_Step_snd]
    unfold rateLimit clampUpperFirst
    rw [if_pos h]
  have hlo : 0 ≤ lc.max_rate * lc.T →
      saturate lc (lead_command lc measurement setpoint)
        < lc.command_sat_prev - lc.max_rate * lc.T →
      (Lead_Compensator_Step lc measurement setpoint).2
        = lc.command_sat_prev - lc.max_rate * lc.T := by
    intro hr h
    rw [Lead_Compensator_Step_snd]
    unfold rateLimit clampUpperFirst
    rw [if_neg (by linarith), if_pos h]
  refine ⟨hup, hlo, ?_⟩
  intro hr h
  rcases h with h | h
  · rw [hup h, add_sub_cancel_left, abs_of_nonneg hr]
  · rw [hlo hr h, sub_sub_cancel_left, abs_neg, abs_of_nonneg hr]

/-- Witness of C9 amended: with `max_rate * T = 1/2` and a stored
`command_sat_prev = 5`, an error of `-100` saturates to `-10`, below
`5 - 1/2`, and the call returns `9/2`. -/
theorem Lead_Compensator_Step_rate_limit_boundary_witness :
    (0 : ℚ) ≤ 5 * (1 / 10)
      ∧ (Lead_Compensator_Step
          { kl := 4 / 10, tau_p := 1, tau_z := 18, T := 1 / 10, max := 10, min := -10,
            max_rate := 5, error_prev := 0, command_prev := 0, command_sat_prev := 5 }
          100 0).2 = 5 - 5 * (1 / 10) :=
  ⟨by norm_num,
    (Lead_Compensator_Step_rate_limit_boundary
      { kl := 4 / 10, tau_p := 1, tau_z := 18, T := 1 / 10, max := 10, min := -10,
        max_rate := 5, error_prev := 0, command_prev := 0, command_sat_prev := 5 }
      100 0).2.1 (by norm_num)
      (by norm_num [saturate, lead_command, clampUpperFirst])⟩

/-! ## The reference run of `main` -/

/-- C10: first tick of the reference scenario, in exact arithmetic.  With the
initialisers of `main`, setpoint `1`, disturbance `0` and the all-zero state,
the first `Lead_Compensator_Step` stores the error `1` and returns the
unsaturated command `(0.4*(0.1*1.0 + 18.0*(1.0-0)))/(0.1+1.0)`, which
saturation leaves unchanged (it is within `[-10, 10]`) and the rate limiter
leaves unchanged (its band is `[-10, 10]`); the first `Object_Step`
integrates with that force unclamped and gives `v = command/100` and
`z = command/1000`, which is the returned position; the first iteration of
the loop of `main` is these two calls. -/
theorem main_first_tick :
    (Lead_Compensator_Step main_lead_compensator main_init.z main_init.stp).1.error_prev = 1
      ∧ lead_command main_lead_compensator main_init.z main_init.stp
        = (4 / 10 * (1 / 10 * 1 + 18 * (1 - 0))) / (1 / 10 + 1)
      ∧ saturate main_lead_compensator
          (lead_command main_lead_compensator main_init.z main_init.stp)
        = lead_command main_lead_compensator main_init.z main_init.stp
      ∧ main_lead_compensator.command_sat_prev
          - main_lead_compensator.max_rate * main_lead_compensator.T = -10
      ∧ main_lead_compensator.command_sat_prev
          + main_lead_compensator.max_rate * main_lead_compensator.T = 10
      ∧ (Lead_Compensator_Step main_lead_compensator main_init.z main_init.stp).2
        = (4 / 10 * (1 / 10 * 1 + 18 * (1 - 0))) / (1 / 10 + 1)
      ∧ Object_F_sat main_obj
          (Lead_Compensator_Step main_lead_compensator main_init.z main_init.stp).2
        = (Lead_Compensator_Step main_lead_compensator main_init.z main_init.stp).2
      ∧ (Object_Step main_obj
          (Lead_Compensator_Step main_lead_compensator main_init.z main_init.stp).2 0).1.v
        = (Lead_Compensator_Step main_lead_compensator main_init.z main_init.stp).2 / 100
      ∧ (Object_Step main_obj
          (Lead_Compensator_Step main_lead_compensator main_init.z main_init.stp).2 0).1.z
        = (Lead_Compensator_Step main_lead_compensator main_init.z main_init.stp).2 / 1000
      ∧ (Object_Step main_obj
          (Lead_Compensator_Step main_lead_compensator main_init.z main_init.stp).2 0).2
        = (Lead_Compensator_Step main_lead_compensator main_init.z main_init.stp).2 / 1000
      ∧ (main_body main_init).command
        = (Lead_Compensator_Step main_lead_compensator main_init.z main_init.stp).2
      ∧ (main_body main_init).obj
        = (Object_Step main_obj
          (Lead_Compensator_Step main_lead_compensator main_init.z main_init.stp).2 0).1
      ∧ (main_body main_init).z
        = (Lead_Compensator_Step main_lead_compensator main_init.z main_init.stp).2 / 1000 := by
  have hc : lead_command main_lead_compensator main_init.z main_init.stp = 362 / 55 := by
    norm_num [lead_command, main_lead_compensator, main_init, TIME_STEP]
  have hs : (Lead_Compensator_Step main_lead_compensator main_init.z main_init.stp).2
      = 362 / 55 := by
    norm_num [Lead_Compensator_Step, main_lead_compensator, main_init, TIME_STEP]
  have ho : Object_Step main_obj (362 / 55) 0
      = ({ main_obj with v := 181 / 2750, z := 181 / 27500 }, 181 / 27500) := by
    norm_num [Object_Step, Object_F_sat, main_obj, TIME_STEP]
  have hb : (main_body main_init).command
      = (Lead_Compensator_Step main_lead_compensator main_init.z main_init.stp).2 := rfl
  have hbo : (main_body main_init).obj
      = (Object_Step main_obj
          (Lead_Compensator_Step main_lead_compensator main_init.z main_init.stp).2 0).1 := rfl
  have hbz : (main_body main_init).z
      = (Object_Step main_obj
          (Lead_Compensator_Step main_lead_compensator main_init.z main_init.stp).2 0).2 := rfl
  rw [hbz, hs, ho, hc]
  refine ⟨?_, by norm_num, ?_, ?_, ?_, by norm_num, ?_, by norm_num, by norm_num,
    by norm_num, hb.trans hs, hbo.trans (by rw [hs, ho]), by norm_num⟩
  · norm_num [Lead_Compensator_Step, main_init]
  · norm_num [saturate, clampUpperFirst, main_lead_compensator]
  · norm_num [main_lead_compensator, TIME_STEP]
  · norm_num [main_lead_compensator, TIME_STEP]
  · norm_num [Object_F_sat, main_obj]

/-- C11, as stated, fails: in exact arithmetic the first tick's command is
`362/55 = 6.5818...`, at distance more than `0.0005` from `6.578`; `dv_dt` is
`0.65818...`, not `0.6578`; `v = 0.065818...` is at distance more than
`0.000005` from `0.06578`; and `z = 0.0065818...` is at distance more than
`0.0000005` from `0.006578`. -/
theorem main_first_tick_not_6578 :
    (main_body main_init).command = 362 / 55
      ∧ ¬ (|(main_body main_init).command - 6578 / 1000| < 5 / 10000)
      ∧ Object_dv_dt main_obj (main_body main_init).command 0 ≠ 6578 / 10000
      ∧ ¬ (|(main_body main_init).obj.v - 6578 / 100000| < 5 / 1000000)
      ∧ ¬ (|(main_body main_init).z - 6578 / 1000000| < 5 / 10000000) := by
  decide!

/-- C11, amended: in exact arithmetic the first tick's `command_sat` agrees
with `6.582` to three decimals (`|command_sat - 6.582| < 0.0005`), the plant
integrates with `F_sat = command_sat`, and the plant's first tick gives
`dv_dt = 0.6582`, `v = 0.06582` and `z = 0.006582` to the digits printed
(`|dv_dt - 0.6582| < 0.00005`, `|v - 0.06582| < 0.000005`,
`|z - 0.006582| < 0.0000005`). -/
theorem main_first_tick_digits :
    |(main_body main_init).command - 6582 / 1000| < 5 / 10000
      ∧ Object_F_sat main_obj (main_body main_init).command = (main_body main_init).command
      ∧ |Object_dv_dt main_obj (main_body main_init).command 0 - 6582 / 10000| < 5 / 100000
      ∧ |(main_body main_init).obj.v - 6582 / 100000| < 5 / 1000000
      ∧ |(main_body main_init).z - 6582 / 1000000| < 5 / 10000000 := by
  decide!

/-- C12: the loop of `main` stops after exactly `LENGTH = 200` iterations (it
has not finished with any smaller bound on the number of iterations, and with
any bound of at least `LENGTH` it ends in the state reached by `LENGTH`
executions of the body, with `i = LENGTH`); it has then written exactly 200
records, one per iteration in order; in exact arithmetic the time field of
record `i` is `i * TIME_STEP`, so `0` for the first and `19.9` for the last,
and the setpoint field of every record is `1`. -/
theorem main_runs_LENGTH_iterations :
    LENGTH = 200
      ∧ (∀ fuel : Nat,
          main fuel = if fuel < LENGTH then none else some (main_body^[LENGTH] main_init))
      ∧ (main_body^[LENGTH] main_init).i = LENGTH
      ∧ (main_body^[LENGTH] main_init).file.length = 200
      ∧ (main_body^[LENGTH] main_init).file
        = (List.range LENGTH).map (fun i => main_record (main_body^[i] main_init))
      ∧ (main_body^[LENGTH] main_init).file.map Record.t
        = (List.range LENGTH).map (fun i => (i : ℚ) * TIME_STEP)
      ∧ (main_body^[LENGTH] main_init).file.map Record.stp = List.replicate LENGTH 1
      ∧ ((main_body^[LENGTH] main_init).file[0]?).map Record.t = some 0
      ∧ ((main_body^[LENGTH] main_init).file[199]?).map Record.t = some (199 / 10) := by
  have hfile : (main_body^[LENGTH] main_init).file
      = (List.range LENGTH).map (fun i => main_record (main_body^[i] main_init)) := by
    rw [main_iter_file]
    rfl
  have ht : ∀ i : Nat, (main_record (main_body^[i] main_init)).t = (i : ℚ) * TIME_STEP := by
    intro i
    show (main_body^[i] main_init).t = (i : ℚ) * TIME_STEP
    rw [(main_iter_fields i main_init).2.1]
    show (0 : ℚ) + (i : ℚ) * TIME_STEP = (i : ℚ) * TIME_STEP
    rw [zero_add]
  have hs : ∀ i : Nat, (main_record (main_body^[i] main_init)).stp = 1 := by
    intro i
    show (main_body^[i] main_init).stp = 1
    rw [(main_iter_fields i main_init).2.2]
    rfl
  refine ⟨rfl, main_eq, ?_, ?_, hfile, ?_, ?_, ?_, ?_⟩
  · rw [(main_iter_fields LENGTH main_init).1]
    rfl
  · rw [hfile, List.length_map, List.length_range]
    rfl
  · rw [hfile, List.map_map]
    exact List.map_congr_left (fun i _ => ht i)
  · rw [hfile, List.map_map, List.eq_replicate_iff]
    refine ⟨by rw [List.length_map, List.length_range], ?_⟩
    intro b hb
    obtain ⟨i, _, hi⟩ := List.mem_map.mp hb
    rw [← hi]
    exact hs i
  · rw [main_file_get LENGTH 0 (by decide), Option.map_some', ht 0]
    norm_num
  · rw [main_file_get LENGTH 199 (by decide), Option.map_some', ht 199]
    norm_num [TIME_STEP]

/-- C13: unity-feedback wiring of the loop of `main`.  The driver state before
tick `0` is the two initialisers with position `0`, the plant's initial
position.  For every tick `i < LENGTH`, record `i` of the finished run carries
the command returned by `Lead_Compensator_Step` on (position before the tick,
setpoint `1`) and the position returned by `Object_Step` on (that command,
disturbance `0`) applied to the plant as tick `i - 1` left it; the compensator
and plant after the tick are those the two calls leave, and the position fed
to the compensator on tick `i + 1` is the position of record `i`, the
post-step position. -/
theorem main_unity_feedback_wiring (i : Nat) (hi : i < LENGTH) :
    Loop_run 1 0 reference_loop
        = { lead_compensator := main_lead_compensator, obj := main_obj, position := main_obj.z }
      ∧ main_obj.z = 0
      ∧ MainState_toLoop (main_body^[i] main_init) = Loop_run 1 i reference_loop
      ∧ ∃ r : Record, (main_body^[LENGTH] main_init).file[i]? = some r
        ∧ r.command
          = (Lead_Compensator_Step (Loop_run 1 i reference_loop).lead_compensator
              (Loop_run 1 i reference_loop).position 1).2
        ∧ r.z = (Object_Step (Loop_run 1 i reference_loop).obj r.command 0).2
        ∧ r.stp = 1
        ∧ (Loop_run 1 (i + 1) reference_loop).lead_compensator
          = (Lead_Compensator_Step (Loop_run 1 i reference_loop).lead_compensator
              (Loop_run 1 i reference_loop).position 1).1
        ∧ (Loop_run 1 (i + 1) reference_loop).obj
          = (Object_Step (Loop_run 1 i reference_loop).obj r.command 0).1
        ∧ (Loop_run 1 (i + 1) reference_loop).position = r.z := by
  have hloop : MainState_toLoop (main_body^[i] main_init) = Loop_run 1 i reference_loop :=
    MainState_toLoop_iter i main_init
  have hstp : (main_body^[i] main_init).stp = 1 := (main_iter_fields i main_init).2.2
  have hnext : Loop_run 1 (i + 1) reference_loop = Loop_tick 1 (Loop_run 1 i reference_loop) := by
    unfold Loop_run
    rw [Function.iterate_succ_apply']
  have hrec : MainState_toLoop (main_body (main_body^[i] main_init))
      = Loop_tick 1 (Loop_run 1 i reference_loop) := by
    rw [MainState_toLoop_body, hstp, hloop]
  refine ⟨rfl, rfl, hloop, main_record (main_body^[i] main_init),
    main_file_get LENGTH i hi, ?_, ?_, hstp, ?_, ?_, ?_⟩
  · show (Lead_Compensator_Step (MainState_toLoop (main_body^[i] main_init)).lead_compensator
        (MainState_toLoop (main_body^[i] main_init)).position
        (main_body^[i] main_init).stp).2 = _
    rw [hstp, hloop]
  · show (MainState_toLoop (main_body (main_body^[i] main_init))).position
        = (Object_Step (Loop_run 1 i reference_loop).obj
            (Loop_command (main_body^[i] main_init).stp
              (MainState_toLoop (main_body^[i] main_init))) 0).2
    rw [hrec, hstp, hloop]
    rfl
  · rw [hnext]
    rfl
  · show (Loop_run 1 (i + 1) reference_loop).obj
        = (Object_Step (Loop_run 1 i reference_loop).obj
            (Loop_command (main_body^[i] main_init).stp
              (MainState_toLoop (main_body^[i] main_init))) 0).1
    rw [hnext, hstp, hloop]
    rfl
  · show (Loop_run 1 (i + 1) reference_loop).position
        = (MainState_toLoop (main_body (main_body^[i] main_init))).position
    rw [hnext, hrec]

/-- Witness of C13, at tick `1` of the reference run: record `1` carries the
command computed from the position left by tick `0`. -/
theorem main_unity_feedback_wiring_witness :
    1 < LENGTH
      ∧ ∃ r : Record, (main_body^[LENGTH] main_init).file[1]? = some r
        ∧ r.command
          = (Lead_Compensator_Step (Loop_run 1 1 reference_loop).lead_compensator
              (Loop_run 1 1 reference_loop).position 1).2
        ∧ r.z = (Object_Step (Loop_run 1 1 reference_loop).obj r.command 0).2
        ∧ r.stp = 1
        ∧ (Loop_run 1 (1 + 1) reference_loop).lead_compensator
          = (Lead_Compensator_Step (Loop_run 1 1 reference_loop).lead_compensator
              (Loop_run 1 1 reference_loop).position 1).1
        ∧ (Loop_run 1 (1 + 1) reference_loop).obj
          = (Object_Step (Loop_run 1 1 reference_loop).obj r.command 0).1
        ∧ (Loop_run 1 (1 + 1) reference_loop).position = r.z :=
  ⟨by decide, (main_unity_feedback_wiring 1 (by decide)).2.2.2⟩

/-- C14: closed-loop tracking in the reference scenario.  The run of `main`
finishes after `LENGTH = 200` ticks, and in exact arithmetic the position in
its last record, which is the plant position after the 200 ticks, is within
`0.05` of the setpoint `1`. -/
theorem main_tracks_setpoint :
    main LENGTH = some (main_body^[LENGTH] main_init)
      ∧ (∃ r : Record, (main_body^[LENGTH] main_init).file[LENGTH - 1]? = some r
          ∧ r.z = (main_body^[LENGTH] main_init).z
          ∧ r.z = (main_body^[LENGTH] main_init).obj.z
          ∧ r.stp = 1
          ∧ |r.z - 1| ≤ 5 / 100)
      ∧ |(main_body^[LENGTH] main_init).z - 1| ≤ 5 / 100 := by
  have hz : |(main_body^[LENGTH] main_init).z - 1| ≤ 5 / 100 := main_final_position
  have hlast : main_body^[LENGTH] main_init = main_body (main_body^[LENGTH - 1] main_init) :=
    Function.iterate_succ_apply' main_body (LENGTH - 1) main_init
  have hrz : (main_record (main_body^[LENGTH - 1] main_init)).z
      = (main_body^[LENGTH] main_init).z := by
    rw [hlast]
    exact (main_record_z _).1
  have hro : (main_record (main_body^[LENGTH - 1] main_init)).z
      = (main_body^[LENGTH] main_init).obj.z := by
    rw [hlast]
    exact (main_record_z _).1.trans (main_record_z _).2
  have hstp : (main_record (main_body^[LENGTH - 1] main_init)).stp = 1 :=
    (main_record_stp _).trans (main_iter_fields (LENGTH - 1) main_init).2.2
  have hmain : main LENGTH = some (main_body^[LENGTH] main_init) := by
    rw [main_eq, if_neg (lt_irrefl _)]
  refine ⟨hmain, ⟨main_record (main_body^[LENGTH - 1] main_init),
    main_file_get LENGTH (LENGTH - 1) (by decide), hrz, hro, hstp, ?_⟩, hz⟩
  rw [hrz]
  exact hz

/-! ## The filter and the limiters -/

/-- C15: output limiting does not feed back into the filter.  For two
compensators that agree on `kl`, `tau_p`, `tau_z`, `T`, `error_prev` and
`command_prev`, whatever their `min`, `max`, `max_rate` and
`command_sat_prev`, and for every common finite sequence of
(measurement, setpoint) inputs, the stored `error_prev` and `command_prev`
after the sequence are equal; the sequence being arbitrary, they are equal
after every step. -/
theorem Lead_Compensator_filter_independent_of_limits (a b : Lead_Compensator)
    (inputs : List (ℚ × ℚ)) (hkl : a.kl = b.kl) (hp : a.tau_p = b.tau_p)
    (hz : a.tau_z = b.tau_z) (hT : a.T = b.T) (he : a.error_prev = b.error_prev)
    (hc : a.command_prev = b.command_prev) :
    (Lead_Compensator_Run a inputs).1.error_prev = (Lead_Compensator_Run b inputs).1.error_prev
      ∧ (Lead_Compensator_Run a inputs).1.command_prev
        = (Lead_Compensator_Run b inputs).1.command_prev :=
  Lead_Compensator_Run_filter inputs a b hkl hp hz hT he hc

/-- Witness of C15: the controller of `main` against one with bounds
`[-1, 2]`, `max_rate = 3` and `command_sat_prev = 1`, on the inputs `(0, 1)`
then `(1/2, 1)`. -/
theorem Lead_Compensator_filter_independent_of_limits_witness :
    (Lead_Compensator_Run main_lead_compensator [(0, 1), (1 / 2, 1)]).1.error_prev
        = (Lead_Compensator_Run
            { main_lead_compensator with max := 2, min := -1, max_rate := 3,
                                         command_sat_prev := 1 }
            [(0, 1), (1 / 2, 1)]).1.error_prev
      ∧ (Lead_Compensator_Run main_lead_compensator [(0, 1), (1 / 2, 1)]).1.command_prev
        = (Lead_Compensator_Run
            { main_lead_compensator with max := 2, min := -1, max_rate := 3,
                                         command_sat_prev := 1 }
            [(0, 1), (1 / 2, 1)]).1.command_prev :=
  Lead_Compensator_filter_independent_of_limits main_lead_compensator
    { main_lead_compensator with max := 2, min := -1, max_rate := 3, command_sat_prev := 1 }
    [(0, 1), (1 / 2, 1)] rfl rfl rfl rfl rfl rfl

/-- C16: the rate limiter never overshoots its target.  When
`max_rate*T ≥ 0`, for every state and inputs the value returned by
`Lead_Compensator_Step` lies between the old `command_sat_prev` and the
saturated command (inclusive), and it equals the saturated command exactly
when that command is within `max_rate*T` of the old `command_sat_prev`.  The
saturated command is the value the saturation of the function computes; when
`min ≤ max` it is `clamp(c, min, max)`. -/
theorem Lead_Compensator_Step_no_overshoot (lc : Lead_Compensator)
    (measurement setpoint : ℚ) (hr : 0 ≤ lc.max_rate * lc.T) :
    (Min.min lc.command_sat_prev (saturate lc (lead_command lc measurement setpoint))
          ≤ (Lead_Compensator_Step lc measurement setpoint).2
        ∧ (Lead_Compensator_Step lc measurement setpoint).2
          ≤ Max.max lc.command_sat_prev (saturate lc (lead_command lc measurement setpoint)))
      ∧ ((Lead_Compensator_Step lc measurement setpoint).2
            = saturate lc (lead_command lc measurement setpoint)
          ↔ |saturate lc (lead_command lc measurement setpoint) - lc.command_sat_prev|
            ≤ lc.max_rate * lc.T)
      ∧ (lc.min ≤ lc.max →
          saturate lc (lead_command lc measurement setpoint)
            = clamp (lead_command lc measurement setpoint) lc.min lc.max) := by
  rw [Lead_Compensator_Step_snd]
  refine ⟨?_, ?_, fun h => clampUpperFirst_eq_clamp _ _ _ h⟩
  · generalize saturate lc (lead_command lc measurement setpoint) = x
    unfold rateLimit clampUpperFirst
    split_ifs with h1 h2
    · exact ⟨le_trans (min_le_left _ _) (by linarith),
        le_trans (le_of_lt h1) (le_max_right _ _)⟩
    · exact ⟨le_trans (min_le_right _ _) (le_of_lt h2),
        le_trans (by linarith) (le_max_left _ _)⟩
    · exact ⟨min_le_right _ _, le_max_right _ _⟩
  · generalize saturate lc (lead_command lc measurement setpoint) = x
    rw [abs_le]
    unfold rateLimit clampUpperFirst
    split_ifs with h1 h2
    · constructor
      · intro h
        linarith
      · intro h
        linarith [h.2]
    · constructor
      · intro h
        linarith
      · intro h
        linarith [h.1]
    · constructor
      · intro _
        constructor <;> linarith
      · intro _
        rfl

/-- Witness of C16: with `max_rate * T = 1/2` and a stored
`command_sat_prev = 5`, an error of `-100` saturates to `-10`; the returned
value is between `-10` and `5`. -/
theorem Lead_Compensator_Step_no_overshoot_witness :
    (0 : ℚ) ≤ 5 * (1 / 10)
      ∧ Min.min (5 : ℚ) (saturate
            { kl := 4 / 10, tau_p := 1, tau_z := 18, T := 1 / 10, max := 10, min := -10,
              max_rate := 5, error_prev := 0, command_prev := 0, command_sat_prev := 5 }
            (lead_command
              { kl := 4 / 10, tau_p := 1, tau_z := 18, T := 1 / 10, max := 10, min := -10,
                max_rate := 5, error_prev := 0, command_prev := 0, command_sat_prev := 5 }
              100 0))
          ≤ (Lead_Compensator_Step
            { kl := 4 / 10, tau_p := 1, tau_z := 18, T := 1 / 10, max := 10, min := -10,
              max_rate := 5, error_prev := 0, command_prev := 0, command_sat_prev := 5 }
            100 0).2 :=
  ⟨by norm_num,
    (Lead_Compensator_Step_no_overshoot
      { kl := 4 / 10, tau_p := 1, tau_z := 18, T := 1 / 10, max := 10, min := -10,
        max_rate := 5, error_prev := 0, command_prev := 0, command_sat_prev := 5 }
      100 0 (by norm_num)).1.1⟩

/-- C17: the DC gain of the filter is `kl`.  For every parameter set with
`T + tau_p ≠ 0` and every `e`, a state with `error_prev = e` and
`command_prev = kl*e` is a fixed point of the filter recursion under constant
error `e`: after `Lead_Compensator_Step` with `setpoint - measurement = e` the
stored `error_prev` is again `e` and the stored `command_prev` is again
`kl*e`. -/
theorem Lead_Compensator_Step_dc_gain (lc : Lead_Compensator) (measurement setpoint e : ℚ)
    (hdiv : lc.T + lc.tau_p ≠ 0) (he : lc.error_prev = e) (hc : lc.command_prev = lc.kl * e)
    (hin : setpoint - measurement = e) :
    (Lead_Compensator_Step lc measurement setpoint).1.error_prev = e
      ∧ (Lead_Compensator_Step lc measurement setpoint).1.command_prev = lc.kl * e := by
  rw [Lead_Compensator_Step_fst]
  refine ⟨hin, ?_⟩
  show lead_command lc measurement setpoint = lc.kl * e
  unfold lead_command
  rw [div_eq_iff hdiv, hin, he, hc]
  ring

/-- Witness of C17, at the parameters of `main` with `e = 1`: `error_prev = 1`
and `command_prev = 0.4`, measurement `2` and setpoint `3`. -/
theorem Lead_Compensator_Step_dc_gain_witness :
    (1 / 10 : ℚ) + 1 ≠ 0
      ∧ (Lead_Compensator_Step
          { kl := 4 / 10, tau_p := 1, tau_z := 18, T := 1 / 10, max := 10, min := -10,
            max_rate := 100, error_prev := 1, command_prev := 4 / 10 * 1,
            command_sat_prev := 0 } 2 3).1.error_prev = 1
      ∧ (Lead_Compensator_Step
          { kl := 4 / 10, tau_p := 1, tau_z := 18, T := 1 / 10, max := 10, min := -10,
            max_rate := 100, error_prev := 1, command_prev := 4 / 10 * 1,
            command_sat_prev := 0 } 2 3).1.command_prev = 4 / 10 * 1 :=
  ⟨by norm_num,
    Lead_Compensator_Step_dc_gain
      { kl := 4 / 10, tau_p := 1, tau_z := 18, T := 1 / 10, max := 10, min := -10,
        max_rate := 100, error_prev := 1, command_prev := 4 / 10 * 1, command_sat_prev := 0 }
      2 3 1 (by norm_num) rfl rfl (by norm_num)⟩

/-! ## The plant clamp in the closed loop -/

/-- C18: in the closed loop the force clamp of the plant is never active when
the bounds of the compensator fit inside those of the plant.  If
`F_min ≤ min ≤ 0 ≤ max ≤ F_max` and `max_rate*T ≥ 0`, then on every tick of a
run of the driver started from a zero-initialised compensator state (any
setpoint, any plant state and initial position) the force `Object_Step`
integrates with equals the command `Lead_Compensator_Step` returned on that
tick; in particular, on each of the `LENGTH = 200` ticks of the run of
`main`, the force integrated equals the command of the tick. -/
theorem closed_loop_plant_clamp_inactive :
    (∀ (s : Loop) (stp : ℚ), ZeroState s.lead_compensator →
        s.obj.F_min ≤ s.lead_compensator.min → s.lead_compensator.min ≤ 0 →
        0 ≤ s.lead_compensator.max → s.lead_compensator.max ≤ s.obj.F_max →
        0 ≤ s.lead_compensator.max_rate * s.lead_compensator.T →
        ∀ n : Nat,
          Object_F_sat (Loop_run stp n s).obj
              (Lead_Compensator_Step (Loop_run stp n s).lead_compensator
                (Loop_run stp n s).position stp).2
            = (Lead_Compensator_Step (Loop_run stp n s).lead_compensator
                (Loop_run stp n s).position stp).2)
      ∧ (∀ i : Nat, i < LENGTH →
          Object_F_sat (main_body^[i] main_init).obj
              (Lead_Compensator_Step (main_body^[i] main_init).lead_compensator
                (main_body^[i] main_init).z (main_body^[i] main_init).stp).2
            = (Lead_Compensator_Step (main_body^[i] main_init).lead_compensator
                (main_body^[i] main_init).z (main_body^[i] main_init).stp).2) := by
  constructor
  · intro s stp hz hlo hmin hmax hhi hr n
    have hp : SatPrevInRange s.lead_compensator := by
      obtain ⟨_, _, h0⟩ := hz
      unfold SatPrevInRange
      rw [h0]
      exact ⟨hmin, hmax⟩
    exact Loop_run_F_sat stp n s hlo (le_trans hmin hmax) hhi hr hp
  · intro i _
    have hloop : MainState_toLoop (main_body^[i] main_init) = Loop_run 1 i reference_loop :=
      MainState_toLoop_iter i main_init
    have hstp : (main_body^[i] main_init).stp = 1 := (main_iter_fields i main_init).2.2
    have h := Loop_run_F_sat 1 i reference_loop
      (by norm_num [reference_loop, main_obj, main_lead_compensator])
      (by norm_num [reference_loop, main_lead_compensator])
      (by norm_num [reference_loop, main_obj, main_lead_compensator])
      (by norm_num [reference_loop, main_lead_compensator, TIME_STEP])
      (by norm_num [SatPrevInRange, reference_loop, main_lead_compensator])
    rw [← hloop] at h
    rw [hstp]
    exact h

/-- Witness of C18: the driver state of the reference scenario satisfies the
hypotheses (bounds `[-10, 10]` on both sides, `max_rate * T = 10`, zero
state); after two ticks the plant integrates the command of the third tick
unclamped. -/
theorem closed_loop_plant_clamp_inactive_witness :
    ZeroState reference_loop.lead_compensator
      ∧ reference_loop.obj.F_min ≤ reference_loop.lead_compensator.min
      ∧ reference_loop.lead_compensator.max ≤ reference_loop.obj.F_max
      ∧ Object_F_sat (Loop_run 1 2 reference_loop).obj
          (Lead_Compensator_Step (Loop_run 1 2 reference_loop).lead_compensator
            (Loop_run 1 2 reference_loop).position 1).2
        = (Lead_Compensator_Step (Loop_run 1 2 reference_loop).lead_compensator
            (Loop_run 1 2 reference_loop).position 1).2 :=
  ⟨⟨rfl, rfl, rfl⟩,
    by norm_num [reference_loop, main_obj, main_lead_compensator],
    by norm_num [reference_loop, main_obj, main_lead_compensator],
    closed_loop_plant_clamp_inactive.1 reference_loop 1 ⟨rfl, rfl, rfl⟩
      (by norm_num [reference_loop, main_obj, main_lead_compensator])
      (by norm_num [reference_loop, main_lead_compensator])
      (by norm_num [reference_loop, main_lead_compensator])
      (by norm_num [reference_loop, main_obj, main_lead_compensator])
      (by norm_num [reference_loop, main_lead_compensator, TIME_STEP]) 2⟩

end LeadCompensatorC
